import Mathlib

/-!
Verification of the Datadog service entity provider
(src/config.d.ts, class DatadogServiceEntityProvider).

The development shallowly embeds the provider: raw Datadog catalog
records, the per-record entity mapper createServiceEntity, the
relationship translator extractRelationships / parseDdEntityRef /
toEntityRef, and the paginated discovery loop discoverServices driven
by run. JavaScript strings are modelled as Lean String, absent JSON
fields as Option, and JavaScript string falsiness (undefined or empty)
by the helper truthy. The HTTP side is modelled as a pure function
from page offset to fetch outcome, and the while loop as fuel-bounded
recursion.
-/

/-- JavaScript string truthiness for optional string fields: an absent
value and the empty string are both falsy, anything else is kept. -/
def truthy : Option String → Option String
  | some s => if s = "" then none else some s
  | none => none

/-- ASCII lower-casing of one character, the per-character behaviour of
toLowerCase and toLocaleLowerCase on the inputs of interest (code
points 65 to 90 shift by 32, everything else is unchanged). -/
def jsCharToLower (c : Char) : Char :=
  if 65 ≤ c.toNat ∧ c.toNat ≤ 90 then Char.ofNat (c.toNat + 32) else c

/-- Whole-string lower-casing, models s.toLowerCase(). -/
def jsToLower (s : String) : String :=
  String.mk (s.data.map jsCharToLower)

/-- Membership in the character class of the regex, the characters
a to z (97 to 122), 0 to 9 (48 to 57) and the dash (45). -/
def isNameChar (c : Char) : Bool :=
  decide ((97 ≤ c.toNat ∧ c.toNat ≤ 122) ∨ (48 ≤ c.toNat ∧ c.toNat ≤ 57) ∨ c.toNat = 45)

/-- One character of the replacement pass of the regex substitution. -/
def replaceChar (c : Char) : Char :=
  if isNameChar c then c else '-'

/-- Models s.replace on the name character class with dash, applied to
every character independently. -/
def replaceDisallowed (s : String) : String :=
  String.mk (s.data.map replaceChar)

/-- Name derivation of createServiceEntity:
attributes.name.toLowerCase().replace of every character outside the
class with a dash. -/
def normalizeName (s : String) : String :=
  replaceDisallowed (jsToLower s)

/-- Splitting a character list on a separator character, accumulator of
the current segment held reversed. Models String.prototype.split with a
single-character separator: empty segments are kept and the empty
string splits to one empty segment. -/
def splitOnCharAux (sep : Char) : List Char → List Char → List String
  | [], acc => [String.mk acc.reverse]
  | c :: cs, acc =>
    if c = sep then String.mk acc.reverse :: splitOnCharAux sep cs []
    else splitOnCharAux sep cs (c :: acc)

/-- Models id.split with a one-character separator. -/
def splitOnChar (sep : Char) (s : String) : List String :=
  splitOnCharAux sep s.data []

/-- Does the character list start with the given prefix list. -/
def startsWithChars : List Char → List Char → Bool
  | [], _ => true
  | _ :: _, [] => false
  | p :: ps, c :: cs => p = c && startsWithChars ps cs

/-- Models s.startsWith for the strings used by the translator. -/
def jsStartsWith (p s : String) : Bool :=
  startsWithChars p.data s.data

/-- A parsed target reference, the object literal returned by
parseDdEntityRef (field namespace renamed nspace, a Lean keyword). -/
structure EntityRefParts where
  kind : String
  nspace : String
  name : String
deriving DecidableEq

/-- The fixed Datadog-to-Backstage relation vocabulary, the Record
ddToBackstageRelationType of extractRelationships; an unknown key gives
undefined, modelled as none. -/
def ddToBackstageRelationType (key : String) : Option String :=
  if key = "RelationTypeDependsOn" then some ("dependsOn")
  else if key = "RelationTypeDependencyOf" then some ("dependencyOf")
  else if key = "RelationTypeOwnedBy" then some ("ownedBy")
  else if key = "RelationTypeOwnerOf" then some ("ownerOf")
  else if key = "RelationTypePartsOf" then some ("partOf")
  else if key = "RelationTypeHasPart" then some ("hasPart")
  else none

/-- parseDdEntityRef: split the id on the colon, locate the first
segment starting with the relation-type marker, reject a marker at
position 0, at the last position or absent, then read the three
segments after the marker; a missing segment is undefined and an empty
segment is falsy, both rejected by the final guard. -/
def parseDdEntityRef (id : String) : Option EntityRefParts :=
  let parts := splitOnChar ':' id
  match parts.findIdx? (fun p => jsStartsWith ("RelationType") p) with
  | none => none
  | some relTypeIdx =>
    if relTypeIdx = 0 ∨ relTypeIdx = parts.length - 1 then none
    else
      let kind := parts.getD (relTypeIdx + 1) ("")
      let nspace := parts.getD (relTypeIdx + 2) ("")
      let name := parts.getD (relTypeIdx + 3) ("")
      if kind = "" ∨ nspace = "" ∨ name = "" then none
      else some { kind := kind, nspace := nspace, name := name }

/-- toEntityRef: compose the Backstage reference string with the kind
lower-cased. -/
def toEntityRef (r : EntityRefParts) : String :=
  jsToLower r.kind ++ ":" ++ r.nspace ++ "/" ++ r.name

/-- One related-entity descriptor of the relationship block, carrying
the composite identifier string. -/
structure RelatedEntity where
  id : String
deriving DecidableEq

/-- The relatedEntities object of the relationship block. -/
structure RelatedEntities where
  data : List RelatedEntity
deriving DecidableEq

/-- The relationships block of a raw record. -/
structure Relationships where
  relatedEntities : Option RelatedEntities
deriving DecidableEq

/-- One relation pushed by extractRelationships: the mapped Backstage
relation type and the composed target reference string (the source
names the second field target). -/
structure Relation where
  type : String
  target : String
deriving DecidableEq

/-- The body of the for loop of extractRelationships for one
related-entity descriptor: find the first colon segment starting with
the relation-type marker, map it through the vocabulary, parse the
target reference; each continue is modelled as none. -/
def translateRelated (rel : RelatedEntity) : Option Relation :=
  let idParts := splitOnChar ':' rel.id
  match idParts.find? (fun p => jsStartsWith ("RelationType") p) with
  | none => none
  | some relTypePart =>
    match ddToBackstageRelationType relTypePart with
    | none => none
    | some backstageType =>
      match parseDdEntityRef rel.id with
      | none => none
      | some target => some { type := backstageType, target := toEntityRef target }

/-- One entry of the contacts list of a raw record; the contact value
may be absent. -/
structure Contact where
  type : String
  contact : Option String
deriving DecidableEq

/-- One entry of the repos list of a raw record. -/
structure Repo where
  provider : Option String
  url : Option String
deriving DecidableEq

/-- The attributes object of a raw Datadog catalog record; every field
may be absent. -/
structure Attributes where
  name : Option String
  description : Option String
  kind : Option String
  lifecycle : Option String
  owner : Option String
  contacts : Option (List Contact)
  repos : Option (List Repo)
  tags : Option (List String)
  tier : Option String
  team : Option String
  application : Option String
deriving DecidableEq

/-- One raw record of a page of the Datadog catalog API. -/
structure RawService where
  attributes : Option Attributes
  relationships : Option Relationships
deriving DecidableEq

/-- extractRelationships: empty when the record has no relationships
block or no relatedEntities list, otherwise the for loop over the
descriptors, each continue dropping its descriptor. -/
def extractRelationships (service : RawService) : List Relation :=
  match service.relationships with
  | none => []
  | some rels =>
    match rels.relatedEntities with
    | none => []
    | some related => related.data.filterMap translateRelated

/-- The owner chain of createServiceEntity: attributes.owner, else the
contact of the first contact of type squad, else the contact of the
first contact of type team, else the literal unknown; each step of the
chain falls through on a falsy (absent or empty) value. -/
def resolveOwner (attributes : Attributes) : String :=
  (truthy attributes.owner).getD
    ((truthy ((attributes.contacts.bind
        (fun cs => cs.find? (fun c => c.type = "squad"))).bind Contact.contact)).getD
      ((truthy ((attributes.contacts.bind
          (fun cs => cs.find? (fun c => c.type = "team"))).bind Contact.contact)).getD
        ("unknown")))

/-- One entry of metadata.links. -/
structure EntityLink where
  url : String
  title : String
  icon : String
deriving DecidableEq

/-- The metadata object of a produced entity; annotations are kept as
an ordered association list in insertion order. -/
structure Metadata where
  name : String
  title : String
  description : String
  annotations : List (String × String)
  tags : List String
  links : List EntityLink
deriving DecidableEq

/-- The spec object of a produced entity. -/
structure EntitySpec where
  type : String
  lifecycle : String
  owner : String
deriving DecidableEq

/-- A produced Backstage entity. The Backstage Entity type also has an
optional relations field; createServiceEntity builds its object literal
without it, so the field is none on every produced entity. -/
structure Entity where
  apiVersion : String
  kind : String
  metadata : Metadata
  spec : EntitySpec
  relations : Option (List Relation)
deriving DecidableEq

/-- createServiceEntity: skip the record when attributes or the name is
missing or falsy, otherwise build the entity. The relationship
translation is computed and written to the console but never attached
(the source marks it with a todo comment). The mutations the source
performs after constructing the object literal (source-location
annotation plus repository link, team and application annotations) are
modelled as appends in the same order. -/
def createServiceEntity (site : String) (service : RawService) : Option Entity :=
  match service.attributes with
  | none => none
  | some attributes =>
    match attributes.name with
    | none => none
    | some rawName =>
      if rawName = "" then none
      else
        let name := normalizeName rawName
        let owner := resolveOwner attributes
        let repos := attributes.repos.getD []
        let primaryRepo :=
          (repos.find? (fun r => r.provider = some ("github"))).orElse (fun _ => repos.head?)
        let _relationships := extractRelationships service
        let repoAnnotationList :=
          match primaryRepo with
          | some repo =>
            match truthy repo.url with
            | some u => [("backstage.io/source-location", "url:" ++ u ++ "/")]
            | none => []
          | none => []
        let repoLinkList :=
          match primaryRepo with
          | some repo =>
            match truthy repo.url with
            | some u => [{ url := u, title := "Repository", icon := "code" : EntityLink }]
            | none => []
          | none => []
        let teamAnnotationList :=
          match truthy attributes.team with
          | some t => [("datadoghq.com/team", t)]
          | none => []
        let appAnnotationList :=
          match truthy attributes.application with
          | some app => [("datadoghq.com/application", app)]
          | none => []
        some {
          apiVersion := "backstage.io/v1alpha1"
          kind := if attributes.kind = some ("system") then "System" else "Component"
          metadata := {
            name := name
            title := rawName
            description :=
              (truthy attributes.description).getD
                ("Service " ++ rawName ++ " from Datadog catalog")
            annotations :=
              [("datadoghq.com/service-name", rawName),
               ("backstage.io/managed-by-location", "datadog:" ++ site),
               ("backstage.io/managed-by-origin-location", "datadog:" ++ site)]
              ++ repoAnnotationList ++ teamAnnotationList ++ appAnnotationList
            tags :=
              ["datadog"] ++ attributes.tags.getD []
              ++ (match truthy attributes.tier with
                  | some t => ["tier-" ++ t]
                  | none => [])
            links := [] ++ repoLinkList }
          spec := {
            type := (truthy attributes.kind).getD ("service")
            lifecycle := (truthy attributes.lifecycle).getD ("unknown")
            owner := owner }
          relations := none }

/-- The URL-encoded offset marker of the next-link regex and the
includes check. -/
def markerChars : List Char := ("page%5Boffset%5D=").data

/-- Strip the given prefix from a character list, none on mismatch. -/
def dropPrefixChars : List Char → List Char → Option (List Char)
  | [], l => some l
  | _ :: _, [] => none
  | p :: ps, c :: cs => if p = c then dropPrefixChars ps cs else none

/-- Is a character an ASCII digit, the regex digit class. -/
def isAsciiDigit (c : Char) : Bool :=
  decide (48 ≤ c.toNat ∧ c.toNat ≤ 57)

/-- The maximal leading digit run of a character list and the rest. -/
def takeDigits : List Char → List Char × List Char
  | [] => ([], [])
  | c :: cs =>
    if isAsciiDigit c then
      let (ds, rest) := takeDigits cs
      (c :: ds, rest)
    else ([], c :: cs)

/-- Decimal value of a digit run, the value parseInt gives it. -/
def digitsToNat (ds : List Char) : Nat :=
  ds.foldl (fun n c => n * 10 + (c.toNat - 48)) 0

/-- Models s.includes of the offset marker. -/
def containsMarker : List Char → Bool
  | [] => false
  | c :: cs => startsWithChars markerChars (c :: cs) || containsMarker cs

/-- Models the regex match of the offset marker followed by a captured
digit run: first-match scanning position by position, a marker
occurrence not followed by a digit does not match there and scanning
continues. -/
def findOffsetMatch : List Char → Option Nat
  | [] => none
  | c :: cs =>
    match dropPrefixChars markerChars (c :: cs) with
    | some rest =>
      match takeDigits rest with
      | ([], _) => findOffsetMatch cs
      | (ds, _) => some (digitsToNat ds)
    | none => findOffsetMatch cs

/-- The next field of the links object of a page body: a string or a
value of another JSON type. -/
inductive NextLink where
  | str (s : String)
  | other
deriving DecidableEq

/-- The links object of a page body. -/
structure PageLinks where
  next : Option NextLink
deriving DecidableEq

/-- A parsed page body: an optional data array of raw records and an
optional links object. -/
structure PageBody where
  data : Option (List RawService)
  links : Option PageLinks
deriving DecidableEq

/-- The next-page check of discoverServices: links present, next a
string, the includes test of the offset marker and then the regex
capture; none means hasNext becomes false. -/
def nextOffsetOf (body : PageBody) : Option Nat :=
  match body.links with
  | none => none
  | some links =>
    match links.next with
    | some (NextLink.str s) =>
      if containsMarker s.data then findOffsetMatch s.data else none
    | _ => none

/-- One fetch outcome at a given offset: a non-ok HTTP response with
status and statusText, or an ok response with its parsed JSON body
(none models a null body). -/
inductive FetchResult where
  | httpError (status : Nat) (statusText : String)
  | json (body : Option PageBody)

/-- The remote catalog API as a pure function from page offset to fetch
outcome. -/
def DdServer : Type := Nat → FetchResult

/-- The errors a run can end with: the not-initialized guard of run and
a non-ok HTTP response of discoverServices. -/
inductive DdError where
  | notConnected
  | remoteAPI (status : Nat) (statusText : String)
deriving DecidableEq

/-- The per-record conversion as the loop sees it: an exception raised
by createServiceEntity (dynamic typing can make it throw on a malformed
record), or its returned value, null modelled as none. -/
def RecordMapper : Type := RawService → Except String (Option Entity)

/-- The record loop of one page of discoverServices: each record is
converted inside try catch; a thrown error drops the record with a
warning and the loop continues, a null entity is not pushed. -/
def processRecords (mapper : RecordMapper) : List RawService → List Entity
  | [] => []
  | r :: rs =>
    match mapper r with
    | Except.ok (some e) => e :: processRecords mapper rs
    | Except.ok none => processRecords mapper rs
    | Except.error _ => processRecords mapper rs

/-- The while loop of discoverServices, fuel bounded: request the
current offset, fail the run on a non-ok response, stop with the
accumulated entities on a null body or missing data array (a warning),
otherwise convert the records of the page and continue at the offset
parsed out of the next link, stopping when there is none. The Nat list
accumulates the requested offsets; none means the fuel ran out. -/
def discoverLoop (mapper : RecordMapper) (server : DdServer) :
    Nat → Nat → List Entity → List Nat →
    Option (List Nat × Except DdError (List Entity))
  | 0, _, _, _ => none
  | fuel + 1, offset, acc, reqs =>
    match server offset with
    | FetchResult.httpError status statusText =>
      some (reqs ++ [offset], Except.error (DdError.remoteAPI status statusText))
    | FetchResult.json none => some (reqs ++ [offset], Except.ok acc)
    | FetchResult.json (some body) =>
      match body.data with
      | none => some (reqs ++ [offset], Except.ok acc)
      | some records =>
        let acc := acc ++ processRecords mapper records
        match nextOffsetOf body with
        | some n => discoverLoop mapper server fuel n acc (reqs ++ [offset])
        | none => some (reqs ++ [offset], Except.ok acc)

/-- discoverServices: the pagination loop from offset 0 with nothing
accumulated; the surrounding try catch only logs and rethrows. -/
def discoverServices (mapper : RecordMapper) (server : DdServer) (fuel : Nat) :
    Option (List Nat × Except DdError (List Entity)) :=
  discoverLoop mapper server fuel 0 [] []

/-- The record mapper of the actual pipeline: createServiceEntity never
throws in the typed model, so every record converts to its returned
value. -/
def mainMapper (site : String) : RecordMapper :=
  fun r => Except.ok (createServiceEntity site r)

/-- getProviderName, used as the scheduler task id and as the
locationKey of every emitted entity. -/
def providerName : String := "DatadogServiceEntityProvider"

/-- One applyMutation argument: the mutation type and the entities each
paired with their locationKey. -/
structure Mutation where
  type : String
  entities : List (Entity × String)
deriving DecidableEq

/-- The observable outcome of one run call: the offsets requested from
the API, the mutations submitted to the connection, and the returned or
thrown result. -/
structure RunOutcome where
  requests : List Nat
  mutations : List Mutation
  result : Except DdError Unit

/-- run: throw the not-initialized error when no connection has been
stored by connect, performing no fetch and submitting no mutation;
otherwise discover the services and submit exactly one full mutation
with every entity paired with the provider name, rethrowing a discovery
error without submitting anything. none means the fuel ran out. -/
def runProvider (connection : Option Unit) (mapper : RecordMapper)
    (server : DdServer) (fuel : Nat) : Option RunOutcome :=
  match connection with
  | none =>
    some { requests := [], mutations := [],
           result := Except.error DdError.notConnected }
  | some _ =>
    match discoverServices mapper server fuel with
    | none => none
    | some (reqs, Except.error e) =>
      some { requests := reqs, mutations := [], result := Except.error e }
    | some (reqs, Except.ok entities) =>
      some { requests := reqs,
             mutations := [{ type := "full",
                             entities := entities.map (fun e => (e, providerName)) }],
             result := Except.ok () }

/-- An attributes object with every field absent, the base of the
concrete records below. -/
def noAttributes : Attributes :=
  { name := none, description := none, kind := none, lifecycle := none, owner := none,
    contacts := none, repos := none, tags := none, tier := none, team := none,
    application := none }

/-- The relationship identifier of the scenario of the spec, also the
example the source gives in its own comments. -/
def specScenarioId : String :=
  "frontend:default/music-player-app:RelationTypeDependsOn:service:default/music-player-service"

/-- The fully colon-separated variant of the identifier, the shape
parseDdEntityRef actually accepts: kind, namespace and name are three
separate segments after the marker. -/
def relColonId : String :=
  "frontend:default:music-player-app:RelationTypeDependsOn:service:default:music-player-service"

/-- A record whose relationship block holds the scenario identifier. -/
def c2Record : RawService :=
  { attributes := none,
    relationships := some { relatedEntities := some { data := [{ id := specScenarioId }] } } }

/-- A named record whose relationship block holds the parseable
colon-separated identifier, so its translation is one relation. -/
def c1Record : RawService :=
  { attributes := some { noAttributes with name := some ("music-player-app") },
    relationships := some { relatedEntities := some { data := [{ id := relColonId }] } } }

/-- The team fallback of the amended owner-resolution claim: the
contact value of the first contact of type team when that value is
present and nonempty, else the literal unknown. -/
def ownerTeamFallback (a : Attributes) : String :=
  match (a.contacts.getD []).find? (fun c => c.type = "team") with
  | some c =>
    match c.contact with
    | some v => if v = "" then "unknown" else v
    | none => "unknown"
  | none => "unknown"

/-- The squad step of the amended owner-resolution claim: the contact
value of the first contact of type squad when present and nonempty,
else the team fallback. -/
def ownerSquadFallback (a : Attributes) : String :=
  match (a.contacts.getD []).find? (fun c => c.type = "squad") with
  | some c =>
    match c.contact with
    | some v => if v = "" then ownerTeamFallback a else v
    | none => ownerTeamFallback a
  | none => ownerTeamFallback a

/-- The amended owner-resolution claim, stated in its own words: the
explicit owner when present and nonempty, else the squad step. -/
def ownerResolutionAmended (a : Attributes) : String :=
  match a.owner with
  | some o => if o = "" then ownerSquadFallback a else o
  | none => ownerSquadFallback a

/-- An attributes object with a present but empty explicit owner and a
squad contact. -/
def attrsOwnerEmpty : Attributes :=
  { noAttributes with
    owner := some (""),
    contacts := some [{ type := "squad", contact := some ("team-x") }] }

/-- An attributes object with a nonempty explicit owner and a squad
contact. -/
def attrsExplicitAndSquad : Attributes :=
  { noAttributes with
    owner := some ("explicit-owner"),
    contacts := some [{ type := "squad", contact := some ("squad-x") }] }

/-- An attributes object with only a squad and a team contact. -/
def attrsSquadAndTeam : Attributes :=
  { noAttributes with
    contacts := some [{ type := "squad", contact := some ("squad-x") },
                      { type := "team", contact := some ("team-y") }] }

/-- A record mapper that throws on every record. -/
def failMapper : RecordMapper := fun _ => Except.error ("boom")

/-- A record with attributes but no name. -/
def noNameRec : RawService := { attributes := some noAttributes, relationships := none }

/-- A record with no attributes block. -/
def noAttrRec : RawService := { attributes := none, relationships := none }

/-- A record whose name is the empty string, falsy in the source
guard. -/
def emptyNameRec : RawService :=
  { attributes := some { noAttributes with name := some ("") }, relationships := none }

/-- A page body with an empty data array and no next link. -/
def stopBody : PageBody :=
  { data := some [], links := some { next := none } }

/-- A server answering every offset with an empty final page. -/
def emptyPageServer : DdServer := fun _ => FetchResult.json (some stopBody)

/-- A server answering every offset with a non-ok HTTP response. -/
def errorServer : DdServer := fun _ => FetchResult.httpError 500 ("Internal Server Error")

/-- A page body whose next link carries both the URL-encoded limit
parameter and the offset parameter, the offset being 250. -/
def nextUrlBody : PageBody :=
  { data := some [],
    links := some { next := some (NextLink.str
      ("https://api.datadoghq.com/api/v2/catalog/entity?include=schema&page%5Blimit%5D=100&page%5Boffset%5D=250")) } }

/-- A server whose page at offset 0 points at offset 250 and whose
other pages are final. -/
def pagingServer : DdServer := fun o =>
  if o = 0 then FetchResult.json (some nextUrlBody) else FetchResult.json (some stopBody)

/-- A server answering every offset with an ok response whose body has
no data array. -/
def noDataServer : DdServer := fun _ => FetchResult.json (some { data := none, links := none })

/-- A server answering every offset with an ok response whose body is
null. -/
def nullBodyServer : DdServer := fun _ => FetchResult.json none

/-- A minimal named record: only the name svc is present. -/
def c10Attrs : Attributes := { noAttributes with name := some ("svc") }

/-- The record carrying c10Attrs. -/
def c10Rec : RawService := { attributes := some c10Attrs, relationships := none }

/-- The entity createServiceEntity produces from c10Rec. -/
def c10Entity : Entity :=
  { apiVersion := "backstage.io/v1alpha1"
    kind := "Component"
    metadata := {
      name := "svc"
      title := "svc"
      description := "Service svc from Datadog catalog"
      annotations :=
        [("datadoghq.com/service-name", "svc"),
         ("backstage.io/managed-by-location", "datadog:datadoghq.com"),
         ("backstage.io/managed-by-origin-location", "datadog:datadoghq.com")]
      tags := ["datadog"]
      links := [] }
    spec := { type := "service", lifecycle := "unknown", owner := "unknown" }
    relations := none }

/-- A named record that also carries a kind. -/
def c10KindAttrs : Attributes :=
  { noAttributes with name := some ("svc"), kind := some ("library") }

/-- The record carrying c10KindAttrs. -/
def c10KindRec : RawService := { attributes := some c10KindAttrs, relationships := none }

/-- The entity createServiceEntity produces from c10KindRec. -/
def c10KindEntity : Entity :=
  { c10Entity with
    spec := { type := "library", lifecycle := "unknown", owner := "unknown" } }

theorem lower_fixed_of_isNameChar {c : Char} (h : isNameChar c = true) :
    jsCharToLower c = c := by
  have h' : (97 ≤ c.toNat ∧ c.toNat ≤ 122) ∨ (48 ≤ c.toNat ∧ c.toNat ≤ 57) ∨ c.toNat = 45 := by
    simpa [isNameChar] using h
  unfold jsCharToLower
  rw [if_neg]
  rcases h' with ⟨h1, h2⟩ | ⟨h1, h2⟩ | h1 <;> omega

theorem isNameChar_replaceChar (c : Char) : isNameChar (replaceChar c) = true := by
  by_cases h : isNameChar c = true
  · simp [replaceChar, h]
  · have h' : isNameChar c = false := by simpa using h
    simp [replaceChar, h']
    decide

theorem replaceChar_lower_idem (c : Char) :
    replaceChar (jsCharToLower (replaceChar (jsCharToLower c))) =
      replaceChar (jsCharToLower c) := by
  by_cases h : isNameChar (jsCharToLower c) = true
  · simp [replaceChar, h, lower_fixed_of_isNameChar h]
  · have h' : isNameChar (jsCharToLower c) = false := by simpa using h
    simp [replaceChar, h']
    decide

/-- C5: name derivation lower-cases and replaces each character outside
the class with a dash one to one: the result is over the class, the
length is preserved (no collapsing), derivation is idempotent, and the
raw name My Service! derives to my-service-. -/
theorem normalizeName_class_idempotent :
    (∀ x : String, (normalizeName x).data.all isNameChar = true)
    ∧ (∀ x : String, normalizeName (normalizeName x) = normalizeName x)
    ∧ (∀ x : String, (normalizeName x).length = x.length)
    ∧ normalizeName ("My Service!") = "my-service-" := by
  refine ⟨fun x => ?_, fun x => ?_, fun x => ?_, by decide⟩
  · rw [show (normalizeName x).data = (x.data.map jsCharToLower).map replaceChar from rfl]
    rw [List.all_eq_true]
    intro c hc
    rw [List.mem_map] at hc
    obtain ⟨b, _, rfl⟩ := hc
    exact isNameChar_replaceChar b
  · obtain ⟨l⟩ := x
    have key : ∀ m : List Char,
        ((((m.map jsCharToLower).map replaceChar).map jsCharToLower).map replaceChar) =
          (m.map jsCharToLower).map replaceChar := by
      intro m
      induction m with
      | nil => rfl
      | cons c cs ih =>
        simp only [List.map_cons]
        rw [replaceChar_lower_idem c]
        rw [show ((((cs.map jsCharToLower).map replaceChar).map jsCharToLower).map replaceChar) = (cs.map jsCharToLower).map replaceChar from ih]
    exact congrArg String.mk (key l)
  · show ((x.data.map jsCharToLower).map replaceChar).length = x.data.length
    simp

/-- C1: the translated relations are computed but never attached: a
record with a translatable relationship yields one translated relation,
yet the produced entity carries no relations field at all. -/
theorem relations_translated_but_not_attached :
    extractRelationships c1Record =
      [{ type := "dependsOn", target := "service:default/music-player-service" }]
    ∧ (createServiceEntity ("datadoghq.com") c1Record).map Entity.relations = some none := by
  constructor
  · decide
  · decide

/-- C2: the scenario identifier of the spec, which is also the example
of the source comments, produces no relation at all: after splitting it
into five colon segments only two segments follow the marker, so
parseDdEntityRef rejects it; only the fully colon-separated variant
produces the expected dependsOn relation. -/
theorem scenario_relationship_id_skipped :
    parseDdEntityRef specScenarioId = none
    ∧ extractRelationships c2Record = []
    ∧ translateRelated { id := relColonId } =
        some { type := "dependsOn", target := "service:default/music-player-service" } := by
  refine ⟨by decide, by decide, by decide⟩

/-- C4: run before connect throws the not-initialized error at once:
for every server and fuel the outcome has no requested offset, no
submitted mutation and the not-connected error. -/
theorem run_before_connect_fails :
    ∀ (mapper : RecordMapper) (server : DdServer) (fuel : Nat),
      runProvider none mapper server fuel =
        some { requests := [], mutations := [],
               result := Except.error DdError.notConnected } := by
  intro _ _ _
  rfl

theorem team_chain_eq (a : Attributes) :
    (truthy ((a.contacts.bind
        (fun cs => cs.find? (fun c => c.type = "team"))).bind Contact.contact)).getD
      ("unknown") = ownerTeamFallback a := by
  unfold ownerTeamFallback
  cases hc : a.contacts with
  | none => simp [truthy]
  | some cs =>
    cases hf : cs.find? (fun c => c.type = "team") with
    | none => simp [truthy, hf]
    | some c =>
      cases hcc : c.contact with
      | none => simp [truthy, hf, hcc]
      | some v =>
        by_cases hv : v = "" <;> simp [truthy, hf, hcc, hv]

theorem squad_chain_eq (a : Attributes) :
    (truthy ((a.contacts.bind
        (fun cs => cs.find? (fun c => c.type = "squad"))).bind Contact.contact)).getD
      ((truthy ((a.contacts.bind
          (fun cs => cs.find? (fun c => c.type = "team"))).bind Contact.contact)).getD
        ("unknown")) = ownerSquadFallback a := by
  unfold ownerSquadFallback
  cases hc : a.contacts with
  | none => simp [truthy, team_chain_eq, ← team_chain_eq a, hc]
  | some cs =>
    cases hf : cs.find? (fun c => c.type = "squad") with
    | none => simpa [truthy, hf, hc] using team_chain_eq a
    | some c =>
      cases hcc : c.contact with
      | none => simpa [truthy, hf, hcc, hc] using team_chain_eq a
      | some v =>
        by_cases hv : v = "" <;> simp [truthy, hf, hcc, hv, hc]
        · simpa [hc] using team_chain_eq a

/-- C6 counterexample: a record with a present but empty explicit owner
field and a squad contact resolves to the squad contact, not to the
explicit owner field. -/
theorem owner_present_but_ignored :
    attrsOwnerEmpty.owner = some ("")
    ∧ resolveOwner attrsOwnerEmpty = "team-x"
    ∧ ("team-x" : String) ≠ "" := by
  refine ⟨rfl, by decide, by decide⟩

/-- C6 amended: owner resolution is the first-match-wins chain over
present and nonempty values: the explicit owner when nonempty, else the
contact of the first squad contact when present and nonempty, else the
contact of the first team contact when present and nonempty, else the
literal unknown; the precedence scenarios of the claim hold. -/
theorem owner_resolution_truthy_chain :
    (∀ a : Attributes, resolveOwner a = ownerResolutionAmended a)
    ∧ resolveOwner attrsExplicitAndSquad = "explicit-owner"
    ∧ resolveOwner attrsSquadAndTeam = "squad-x" := by
  refine ⟨fun a => ?_, by decide, by decide⟩
  unfold resolveOwner ownerResolutionAmended
  cases ho : a.owner with
  | none => simpa [truthy] using squad_chain_eq a
  | some o =>
    by_cases hoe : o = ""
    · simpa [truthy, hoe] using squad_chain_eq a
    · simp [truthy, hoe]

/-- C3: on a connected provider, run submits exactly one full mutation
with every discovered entity paired with the provider name exactly when
discovery succeeds; a discovery error is rethrown and nothing is
submitted. -/
theorem run_full_mutation_iff_success :
    ∀ (mapper : RecordMapper) (server : DdServer) (fuel : Nat),
      (∀ reqs entities,
        discoverServices mapper server fuel = some (reqs, Except.ok entities) →
        runProvider (some ()) mapper server fuel =
          some { requests := reqs,
                 mutations := [{ type := "full",
                                 entities := entities.map (fun e => (e, providerName)) }],
                 result := Except.ok () })
      ∧ (∀ reqs err,
        discoverServices mapper server fuel = some (reqs, Except.error err) →
        runProvider (some ()) mapper server fuel =
          some { requests := reqs, mutations := [], result := Except.error err }) := by
  intro mapper server fuel
  constructor <;> intro reqs x h <;> simp [runProvider, h]

/-- Witness of C3 at two concrete servers: an empty final page gives
one full mutation with no entities, a 500 response gives the rethrown
error and no mutation. -/
theorem run_full_mutation_iff_success_witness :
    runProvider (some ()) (mainMapper ("datadoghq.com")) emptyPageServer 2 =
      some { requests := [0],
             mutations := [{ type := "full", entities := [] }],
             result := Except.ok () }
    ∧ runProvider (some ()) (mainMapper ("datadoghq.com")) errorServer 2 =
      some { requests := [0], mutations := [],
             result := Except.error (DdError.remoteAPI 500 ("Internal Server Error")) } :=
  ⟨(run_full_mutation_iff_success (mainMapper ("datadoghq.com")) emptyPageServer 2).1 [0] [] rfl,
   (run_full_mutation_iff_success (mainMapper ("datadoghq.com")) errorServer 2).2 [0]
     (DdError.remoteAPI 500 ("Internal Server Error")) rfl⟩

/-- C7: the next requested offset is exactly the value parsed out of
the next link of the page body, whatever it is, and pagination stops
after the current page exactly when no offset parses: links absent,
next absent, next not a string, or no numeric capture. -/
theorem pagination_follows_next_link :
    ∀ (mapper : RecordMapper) (server : DdServer) (fuel offset : Nat)
      (acc : List Entity) (reqs : List Nat) (body : PageBody) (records : List RawService),
      server offset = FetchResult.json (some body) →
      body.data = some records →
      ((∀ n, nextOffsetOf body = some n →
          discoverLoop mapper server (fuel + 1) offset acc reqs =
            discoverLoop mapper server fuel n
              (acc ++ processRecords mapper records) (reqs ++ [offset]))
       ∧ (nextOffsetOf body = none →
          discoverLoop mapper server (fuel + 1) offset acc reqs =
            some (reqs ++ [offset], Except.ok (acc ++ processRecords mapper records)))
       ∧ (∀ d : Option (List RawService), nextOffsetOf { data := d, links := none } = none)
       ∧ (∀ d : Option (List RawService),
            nextOffsetOf { data := d, links := some { next := none } } = none)
       ∧ (∀ d : Option (List RawService),
            nextOffsetOf { data := d, links := some { next := some NextLink.other } } = none)) := by
  intro mapper server fuel offset acc reqs body records hs hd
  refine ⟨fun n hn => ?_, fun hn => ?_, fun d => rfl, fun d => rfl, fun d => rfl⟩
  · simp [discoverLoop, hs, hd, hn]
  · simp [discoverLoop, hs, hd, hn]

/-- Witness of C7: the page at offset 0 carries a next link whose
encoded offset is 250, past an encoded limit parameter of 100, and the
loop continues exactly at 250; a page with no next link ends the loop. -/
theorem pagination_follows_next_link_witness :
    discoverLoop (mainMapper ("datadoghq.com")) pagingServer 2 0 [] [] =
      discoverLoop (mainMapper ("datadoghq.com")) pagingServer 1 250
        ([] ++ processRecords (mainMapper ("datadoghq.com")) []) ([] ++ [0])
    ∧ discoverLoop (mainMapper ("datadoghq.com")) emptyPageServer 1 7 [] [0] =
        some ([0] ++ [7],
          Except.ok ([] ++ processRecords (mainMapper ("datadoghq.com")) [])) :=
  ⟨(pagination_follows_next_link (mainMapper ("datadoghq.com")) pagingServer 1 0 [] []
      nextUrlBody [] rfl rfl).1 250 (by decide),
   (pagination_follows_next_link (mainMapper ("datadoghq.com")) emptyPageServer 0 7 [] [0]
      stopBody [] rfl rfl).2.1 rfl⟩

/-- C8: a page whose body is null or lacks a data array ends pagination
right there with the entities accumulated so far, as a success. -/
theorem missing_data_ends_pagination :
    ∀ (mapper : RecordMapper) (server : DdServer) (fuel offset : Nat)
      (acc : List Entity) (reqs : List Nat),
      (server offset = FetchResult.json none →
        discoverLoop mapper server (fuel + 1) offset acc reqs =
          some (reqs ++ [offset], Except.ok acc))
      ∧ (∀ links, server offset = FetchResult.json (some { data := none, links := links }) →
        discoverLoop mapper server (fuel + 1) offset acc reqs =
          some (reqs ++ [offset], Except.ok acc)) := by
  intro mapper server fuel offset acc reqs
  constructor
  · intro h
    simp [discoverLoop, h]
  · intro links h
    simp [discoverLoop, h]

/-- Witness of C8 at concrete servers answering with a body without
data and with a null body. -/
theorem missing_data_ends_pagination_witness :
    discoverLoop (mainMapper ("datadoghq.com")) noDataServer 3 5 [] [0] =
      some ([0] ++ [5], Except.ok [])
    ∧ discoverLoop (mainMapper ("datadoghq.com")) nullBodyServer 3 5 [] [0] =
      some ([0] ++ [5], Except.ok []) :=
  ⟨(missing_data_ends_pagination (mainMapper ("datadoghq.com")) noDataServer 2 5 [] [0]).2
     none rfl,
   (missing_data_ends_pagination (mainMapper ("datadoghq.com")) nullBodyServer 2 5 [] [0]).1
     rfl⟩

/-- C9: a record whose conversion throws is dropped with a warning and
the loop continues with the remaining records; a record whose
conversion returns null is likewise never pushed; and createServiceEntity
returns null for a record without attributes or without a usable
name. -/
theorem record_failures_absorbed :
    (∀ (mapper : RecordMapper) (pre post : List RawService) (r : RawService) (msg : String),
        mapper r = Except.error msg →
        processRecords mapper (pre ++ r :: post) = processRecords mapper (pre ++ post))
    ∧ (∀ (mapper : RecordMapper) (pre post : List RawService) (r : RawService),
        mapper r = Except.ok none →
        processRecords mapper (pre ++ r :: post) = processRecords mapper (pre ++ post))
    ∧ (∀ (site : String) (s : RawService), s.attributes = none →
        createServiceEntity site s = none)
    ∧ (∀ (site : String) (s : RawService) (a : Attributes),
        s.attributes = some a → a.name = none ∨ a.name = some ("") →
        createServiceEntity site s = none) := by
  refine ⟨?_, ?_, ?_, ?_⟩
  · intro mapper pre post r msg h
    induction pre with
    | nil => simp [processRecords, h]
    | cons q qs ih =>
      simp only [List.cons_append, processRecords, List.append_eq]
      rw [ih]
  · intro mapper pre post r h
    induction pre with
    | nil => simp [processRecords, h]
    | cons q qs ih =>
      simp only [List.cons_append, processRecords, List.append_eq]
      rw [ih]
  · intro site s h
    obtain ⟨sa, sr⟩ := s
    simp only at h
    subst h
    rfl
  · intro site s a h hn
    obtain ⟨sa, sr⟩ := s
    simp only at h
    subst h
    rcases hn with hn | hn <;> simp [createServiceEntity, hn]

/-- Witness of C9: a throwing mapper drops its record, a nameless
record converts to null and is dropped, and the two skip guards fire on
concrete records. -/
theorem record_failures_absorbed_witness :
    processRecords failMapper ([] ++ noAttrRec :: []) = processRecords failMapper ([] ++ [])
    ∧ processRecords (mainMapper ("datadoghq.com")) ([] ++ noNameRec :: []) =
        processRecords (mainMapper ("datadoghq.com")) ([] ++ [])
    ∧ createServiceEntity ("datadoghq.com") noAttrRec = none
    ∧ createServiceEntity ("datadoghq.com") emptyNameRec = none :=
  ⟨record_failures_absorbed.1 failMapper [] [] noAttrRec ("boom") rfl,
   record_failures_absorbed.2.1 (mainMapper ("datadoghq.com")) [] [] noNameRec rfl,
   record_failures_absorbed.2.2.1 ("datadoghq.com") noAttrRec rfl,
   record_failures_absorbed.2.2.2 ("datadoghq.com") emptyNameRec
     { noAttributes with name := some ("") } rfl (Or.inr rfl)⟩

/-- C10: every produced entity gets the fixed defaults when the raw
fields are absent, the raw kind as spec type when present and nonempty,
and always carries the three provenance annotation entries. -/
theorem entity_defaults_and_provenance :
    ∀ (site : String) (s : RawService) (a : Attributes) (n : String),
      s.attributes = some a → a.name = some n → n ≠ "" →
      ∀ e : Entity, createServiceEntity site s = some e →
        (a.description = none →
          e.metadata.description = "Service " ++ n ++ " from Datadog catalog")
        ∧ (a.kind = none → e.spec.type = "service")
        ∧ (∀ k, a.kind = some k → k ≠ "" → e.spec.type = k)
        ∧ (a.lifecycle = none → e.spec.lifecycle = "unknown")
        ∧ ("datadoghq.com/service-name", n) ∈ e.metadata.annotations
        ∧ ("backstage.io/managed-by-location", "datadog:" ++ site) ∈ e.metadata.annotations
        ∧ ("backstage.io/managed-by-origin-location", "datadog:" ++ site)
            ∈ e.metadata.annotations := by
  intro site s a n hattr hname hne e he
  obtain ⟨sa, sr⟩ := s
  simp only at hattr
  subst hattr
  simp only [createServiceEntity, hname, if_neg hne, Option.some.injEq] at he
  subst he
  refine ⟨fun hd => ?_, fun hk => ?_, fun k hk hke => ?_, fun hl => ?_, ?_, ?_, ?_⟩
  · simp [truthy, hd]
  · simp [truthy, hk]
  · simp [truthy, hk, hke]
  · simp [truthy, hl]
  · simp
  · simp
  · simp

/-- Witness of C10: the minimal named record produces exactly the
defaulted entity with its three provenance annotation entries, and a
record with kind library gets spec type library. -/
theorem entity_defaults_and_provenance_witness :
    c10Entity.metadata.description = "Service svc from Datadog catalog"
    ∧ c10Entity.spec.type = "service"
    ∧ c10Entity.spec.lifecycle = "unknown"
    ∧ ("datadoghq.com/service-name", "svc") ∈ c10Entity.metadata.annotations
    ∧ ("backstage.io/managed-by-location", "datadog:datadoghq.com")
        ∈ c10Entity.metadata.annotations
    ∧ ("backstage.io/managed-by-origin-location", "datadog:datadoghq.com")
        ∈ c10Entity.metadata.annotations
    ∧ c10KindEntity.spec.type = "library" := by
  have H := entity_defaults_and_provenance ("datadoghq.com") c10Rec c10Attrs "svc"
    rfl rfl (by decide) c10Entity (by decide)
  have H2 := entity_defaults_and_provenance ("datadoghq.com") c10KindRec c10KindAttrs "svc"
    rfl rfl (by decide) c10KindEntity (by decide)
  exact ⟨H.1 rfl, H.2.1 rfl, H.2.2.2.1 rfl, H.2.2.2.2.1, H.2.2.2.2.2.1, H.2.2.2.2.2.2,
    H2.2.2.1 ("library") rfl (by decide)⟩
